import Mathlib

/-!
Verification of the dimAns repository's dimensional-arithmetic core against its
natural-language specification.

The repository contains several generations of the same library.  Each generation
is embedded in its own namespace:

* `DimansCore`   — `src/dimans/__init__.py` together with `src/dimans/abc.py`
                   (DerivedUnit without offset, Quantity arithmetic).
* `Measurement`  — `src/measurement/__init__.py` and
                   `src/measurement/units/metric_utils.py` (metric-prefix generator).
* `CurrentGen`   — `src/src/dimans/base_classes.py` (affine conversion parameters)
                   plus the unit-catalog modules that construct offset-carrying
                   compound units (`celsius`, `fahrenheit`).
* `Cli`          — `src/src/dimans/cli/__init__.py` (error rendering and the
                   input-changed / input-submitted handlers).

Numbers follow the exact-rational path of the library (`fractions.Fraction`),
modelled as `ℚ`.  Python dictionaries that map units/dimensions to exponents are
modelled as insertion-ordered association lists, matching CPython dict semantics
(insertion order preserved; deletion removes the slot; equality of dicts is
content equality).
-/

namespace DimAns

/-- A physical dimension.  Both generations compare dimensions by object
identity (enum members / registry entries); the `id` field models that
identity. -/
structure Dimension where
  id : Nat
deriving DecidableEq, Repr

/-- A dimension-exponent map (the value of `dimension_map()`): an
insertion-ordered association list with pairwise-distinct keys, the model of a
Python `dict[Dimension, Fraction]`. -/
abbrev DimMap := List (Dimension × ℚ)

/-- Lookup in a dimension map (first matching key). -/
def dmGet? (m : DimMap) (d : Dimension) : Option ℚ :=
  match m.find? (fun p => p.1 = d) with
  | some p => some p.2
  | none => none

/-- One step of the `dimension_map` accumulation loop
(`src/dimans/__init__.py:358-367`): if the dimension is not yet a key, insert it
at the end; otherwise add the exponent in place and delete the entry if the sum
is exactly zero. -/
def dmStep (m : DimMap) (d : Dimension) (e : ℚ) : DimMap :=
  match dmGet? m d with
  | none => m ++ [(d, e)]
  | some old =>
      if old + e = 0 then m.filter (fun p => !(p.1 = d : Bool))
      else m.map (fun p => if p.1 = d then (p.1, old + e) else p)

/-- Python `dict` equality on dimension maps: content equality, insensitive to
insertion order. -/
def dmEq (a b : DimMap) : Bool :=
  a.all (fun p => dmGet? b p.1 == some p.2) && b.all (fun p => dmGet? a p.1 == some p.2)

/-- Python `Fraction ** Fraction` stays on the exact-rational path only when
the exponent is an integer (`Fraction.__pow__`); a non-integral exponent leaves
for floating point, which is outside the exact fragment the claims are about,
and is mapped to the junk value `0` here.  No claim in this development
exercises a non-integral exponent in a factor computation. -/
def pyPowQ (b e : ℚ) : ℚ :=
  if e.den = 1 then b ^ e.num else 0

namespace DimansCore

/-- `BaseUnit` of `src/dimans/__init__.py:399-509`: display symbol, dimension,
and scale factor relative to the dimension's SI base unit.  `oid` models Python
object identity (`attrs` generates `__hash__` from the fields, but the class's
own `__eq__`, traced below, makes distinct instances compare unequal, so dict
keys behave per-instance). -/
structure BaseUnit where
  symbol : String
  dimension : DimAns.Dimension
  factor : ℚ
  oid : Nat
deriving DecidableEq, Repr

/-- `BaseUnit.si_factor` (`src/dimans/__init__.py:508-509`): returns the stored
factor. -/
def buSiFactor (b : BaseUnit) : ℚ := b.factor

/-- The `BaseUnit`-vs-`BaseUnit` branch of `BaseUnit.__eq__`
(`src/dimans/__init__.py:465-474`).  In this generation `si_factor` is a
*method*, so `self.si_factor != other.si_factor` compares the two *bound
methods*; CPython compares bound methods by equality of `__func__` and
*identity* of `__self__`, hence the comparison is "not the same object".
The net behaviour: `False` when dimensions differ, otherwise `True` exactly
when both operands are the same object (modelled by `oid`). -/
def buPyEq (a b : BaseUnit) : Bool :=
  if a.dimension = b.dimension then a.oid = b.oid else false

/-- The `unit_exponents` mapping of a `DerivedUnit`: a Python dict keyed by
`BaseUnit`, modelled as an insertion-ordered association list. -/
abbrev UnitExponents := List (BaseUnit × ℚ)

/-- Dict lookup with default 0, `self.unit_exponents.get(base_unit, 0)`.  Key
equality is `BaseUnit.__eq__`, i.e. `buPyEq`. -/
def ueGet (m : UnitExponents) (u : BaseUnit) : ℚ :=
  match m.find? (fun p => buPyEq p.1 u) with
  | some p => p.2
  | none => 0

/-- `DerivedUnit` of `src/dimans/__init__.py:222-392`: optional symbol, the
exponent dict, and an overall factor (default `Fraction(1)`).  This generation
has no offset field. -/
structure DerivedUnit where
  symbol : Option String
  unitExponents : UnitExponents
  factor : ℚ
deriving DecidableEq, Repr

/-- The key-collection loops of `DerivedUnit.__mul__`
(`src/dimans/__init__.py:286-292`): gather the keys of both operands, in order,
skipping keys already present (`unit not in base_units` uses `BaseUnit.__eq__`,
i.e. `buPyEq`). -/
def collectKeys (ks : List BaseUnit) : List BaseUnit :=
  ks.foldl (fun acc u => if acc.any (fun v => buPyEq v u) then acc else acc ++ [u]) []

/-- `DerivedUnit.__mul__` with a `DerivedUnit` operand
(`src/dimans/__init__.py:284-307`): per collected key, sum the two exponents,
keep only nonzero sums, and multiply the factors.  The result is unnamed. -/
def duMul (a b : DerivedUnit) : DerivedUnit :=
  let keys := collectKeys ((a.unitExponents.map Prod.fst) ++ (b.unitExponents.map Prod.fst))
  { symbol := none
    unitExponents := keys.filterMap (fun u =>
      let e := ueGet a.unitExponents u + ueGet b.unitExponents u
      if e = 0 then none else some (u, e))
    factor := a.factor * b.factor }

/-- `DerivedUnit.multiplicative_inverse` (`src/dimans/__init__.py:381-389`):
negate every exponent, invert the factor. -/
def duMulInv (u : DerivedUnit) : DerivedUnit :=
  { symbol := none
    unitExponents := u.unitExponents.map (fun p => (p.1, -p.2))
    factor := 1 / u.factor }

/-- `DerivedUnit.__truediv__` (`src/dimans/__init__.py:315-320`) between two
`DerivedUnit`s.  The guard `other == 1` compares a `DerivedUnit` with the int 1,
which falls through every `isinstance` branch of `__eq__` on both sides and is
therefore `False`, so the division is multiplication by the inverse. -/
def duDiv (a b : DerivedUnit) : DerivedUnit := duMul a (duMulInv b)

/-- `DerivedUnit.__pow__` (`src/dimans/__init__.py:269-282`): multiply every
exponent by the power, raise the factor to it. -/
def duPow (u : DerivedUnit) (p : ℚ) : DerivedUnit :=
  { symbol := none
    unitExponents := u.unitExponents.map (fun q => (q.1, q.2 * p))
    factor := pyPowQ u.factor p }

/-- `DerivedUnit.named` on a `DerivedUnit` argument
(`src/dimans/__init__.py:228-241`): re-symbol the unit. -/
def duNamed (symbol : String) (ref : DerivedUnit) : DerivedUnit :=
  { symbol := some symbol, unitExponents := ref.unitExponents, factor := ref.factor }

/-- `DerivedUnit.using` (`src/dimans/__init__.py:243-248`): share the
reference's exponents, multiply the factors. -/
def duUsing (ref : DerivedUnit) (symbol : Option String) (factor : ℚ) : DerivedUnit :=
  { symbol := symbol, unitExponents := ref.unitExponents, factor := ref.factor * factor }

/-- `DerivedUnit.dimension_map` (`src/dimans/__init__.py:358-367`): fold the
exponent entries into a dict keyed by each base unit's dimension, dropping
entries whose exponents sum to exactly zero. -/
def dimensionMap (u : DerivedUnit) : DimMap :=
  u.unitExponents.foldl (fun m p => dmStep m p.1.dimension p.2) []

/-- `DerivedUnit.si_factor` (`src/dimans/__init__.py:372-376`):
`factor * Π base.si_factor() ** exponent`. -/
def duSiFactor (u : DerivedUnit) : ℚ :=
  u.unitExponents.foldl (fun f p => f * pyPowQ (buSiFactor p.1) p.2) u.factor

/-- The `DerivedUnit`-vs-`DerivedUnit` branch of `DerivedUnit.__eq__`
(`src/dimans/__init__.py:329-338`): equal dimension maps and equal
`si_factor()`.  (`dimensions()` wraps `dimension_map()` in the `Dimensions`
class, whose equality is structural equality of the map.) -/
def duPyEq (a b : DerivedUnit) : Bool :=
  dmEq (dimensionMap a) (dimensionMap b) && (duSiFactor a == duSiFactor b)

/-- `BaseUnit.as_derived_unit` (`src/dimans/__init__.py:492-493`):
`DerivedUnit(symbol, {self: 1})` with default factor 1. -/
def buAsDerivedUnit (b : BaseUnit) (symbol : Option String := none) : DerivedUnit :=
  { symbol := symbol, unitExponents := [(b, 1)], factor := 1 }

/-- `Unit.conversion_factor_to` (`src/dimans/abc.py`): requires equal
dimension maps, then returns the ratio of SI factors. -/
def conversionFactorTo (a b : DerivedUnit) : Except String ℚ :=
  if dmEq (dimensionMap a) (dimensionMap b) then .ok (duSiFactor a / duSiFactor b)
  else .error "units must have the same dimensions"

/-- `Quantity` of `src/dimans/__init__.py:24-215`: an exact-rational value
paired with a `DerivedUnit`. -/
structure Quantity where
  value : ℚ
  unit : DerivedUnit
deriving DecidableEq, Repr

/-- `Quantity.convert_to` (`src/dimans/__init__.py:194-208`) with a
`DerivedUnit` target: requires equal dimensions (the `Dimensions` wrapper
compares maps structurally; its module is not under `src`, so that equality is
modelled from the spec as structural map equality), then scales the value by
`conversion_factor_to`. -/
def convertTo (q : Quantity) (other : DerivedUnit) : Except String Quantity :=
  if dmEq (dimensionMap q.unit) (dimensionMap other) then
    (conversionFactorTo q.unit other).map (fun f => ⟨q.value * f, other⟩)
  else .error "target unit must have the same dimensions"

/-- The result of quantity multiplication/division: a bare number when the
dimensions collapse, a quantity otherwise. -/
inductive QVal where
  | num (x : ℚ)
  | quant (q : Quantity)
deriving DecidableEq, Repr

/-- `Quantity.__mul__` with a `Quantity` operand
(`src/dimans/__init__.py:48-58`): compose the units; if the composed unit's
dimension map is empty, return the bare number
`value_product * residual_factor`, else a quantity in the composed unit. -/
def qMul (a b : Quantity) : QVal :=
  let newUnit := duMul a.unit b.unit
  if (dimensionMap newUnit).isEmpty then .num (a.value * b.value * newUnit.factor)
  else .quant ⟨a.value * b.value, newUnit⟩

/-- `Quantity.multiplicative_inverse` (`src/dimans/__init__.py:188-189`). -/
def qMulInv (q : Quantity) : Quantity := ⟨1 / q.value, duMulInv q.unit⟩

/-- `Quantity.additive_inverse` (`src/dimans/__init__.py:191-192`). -/
def qAddInv (q : Quantity) : Quantity := ⟨-q.value, q.unit⟩

/-- `Quantity.__truediv__` with a `Quantity` operand
(`src/dimans/__init__.py:88-95`): multiply by the multiplicative inverse. -/
def qDiv (a b : Quantity) : QVal := qMul a (qMulInv b)

/-- `Quantity.__add__` with a `Quantity` operand
(`src/dimans/__init__.py:62-67`).  When the units differ under `__eq__`, the
right operand is converted into the left's unit and the addition retried; the
retry lands in the equal-units branch because the converted quantity carries
`self.unit` itself and `DerivedUnit.__eq__` is reflexive, so that second round
is inlined here. -/
def qAdd (a b : Quantity) : Except String Quantity :=
  if duPyEq a.unit b.unit then .ok ⟨a.value + b.value, a.unit⟩
  else (convertTo b a.unit).map (fun b' => ⟨a.value + b'.value, a.unit⟩)

/-- `Quantity.__sub__` (`src/dimans/__init__.py:71-74`): add the additive
inverse. -/
def qSub (a b : Quantity) : Except String Quantity := qAdd a (qAddInv b)

/-- Python `Fraction.__mod__`: remainder with the sign of the divisor,
`x - y*⌊x/y⌋`. -/
def pyMod (x y : ℚ) : ℚ := x - y * ⌊x / y⌋

/-- `Quantity.__divmod__` with a `Quantity` operand
(`src/dimans/__init__.py:109-117`).  When the units differ under `__eq__`, the
*left* operand is converted into the *right* operand's unit
(`divmod(self.convert_to(other.unit), other)`); the recursive call lands in the
equal-units branch (the converted quantity carries `other.unit` itself) and is
inlined here.  The quotient is the bare floor quotient; the remainder carries
the left operand's (possibly converted) unit. -/
def qDivmod (a b : Quantity) : Except String (ℤ × Quantity) :=
  if duPyEq a.unit b.unit then .ok (⌊a.value / b.value⌋, ⟨pyMod a.value b.value, a.unit⟩)
  else (convertTo a b.unit).map (fun a' =>
    (⌊a'.value / b.value⌋, ⟨pyMod a'.value b.value, a'.unit⟩))

/-- `Quantity.__mod__` with a `Quantity` operand
(`src/dimans/__init__.py:146-153`): same conversion direction as `__divmod__`
(`self.convert_to(other.unit) % other`), inlined the same way. -/
def qMod (a b : Quantity) : Except String Quantity :=
  if duPyEq a.unit b.unit then .ok ⟨pyMod a.value b.value, a.unit⟩
  else (convertTo a b.unit).map (fun a' => ⟨pyMod a'.value b.value, a'.unit⟩)

/-- `Quantity.__floordiv__` with a `Quantity` operand
(`src/dimans/__init__.py:119-129`): build the quotient unit `self.unit /
other.unit`; if its dimension map is empty, collapse to the bare number
`(value floor-quotient) * residual_factor`, else keep a quantity in the
quotient unit.  No operand is converted. -/
def qFloorDiv (a b : Quantity) : QVal :=
  let newUnit := duDiv a.unit b.unit
  if (dimensionMap newUnit).isEmpty then .num ((⌊a.value / b.value⌋ : ℚ) * newUnit.factor)
  else .quant ⟨(⌊a.value / b.value⌋ : ℚ), newUnit⟩

end DimansCore

namespace Measurement

/-- `BaseUnit` of `src/measurement/__init__.py:419-555`: in this generation
`si_factor` is a plain attribute. -/
structure MBaseUnit where
  symbol : String
  dimension : DimAns.Dimension
  siFactor : ℚ
deriving DecidableEq, Repr

/-- `DerivedUnit` of `src/measurement/__init__.py:216-414`: optional symbol,
exponent dict, overall factor (default `Fraction(1)`). -/
structure MDerivedUnit where
  symbol : Option String
  unitExponents : List (MBaseUnit × ℚ)
  factor : ℚ
deriving DecidableEq, Repr

/-- `MetricPrefix` of `src/measurement/units/metric_utils.py:9-13`. -/
structure MetricPrefixRow where
  name : String
  symbol : String
  factor : ℚ
deriving DecidableEq, Repr

/-- The fixed `metric_prefixes` table
(`src/measurement/units/metric_utils.py:16-40`), quetta first, quecto last. -/
def metricPrefixTable : List MetricPrefixRow :=
  [ ⟨"quetta", "Q", 10 ^ 30⟩,
    ⟨"yotta", "Y", 10 ^ 24⟩,
    ⟨"zetta", "Z", 10 ^ 21⟩,
    ⟨"exa", "E", 10 ^ 18⟩,
    ⟨"peta", "P", 10 ^ 15⟩,
    ⟨"tera", "T", 10 ^ 12⟩,
    ⟨"giga", "G", 10 ^ 9⟩,
    ⟨"mega", "M", 10 ^ 6⟩,
    ⟨"kilo", "k", 10 ^ 3⟩,
    ⟨"hecto", "h", 10 ^ 2⟩,
    ⟨"deca", "da", 10 ^ 1⟩,
    ⟨"deci", "d", 1 / 10 ^ 1⟩,
    ⟨"centi", "c", 1 / 10 ^ 2⟩,
    ⟨"milli", "m", 1 / 10 ^ 3⟩,
    ⟨"micro", "μ", 1 / 10 ^ 6⟩,
    ⟨"nano", "n", 1 / 10 ^ 9⟩,
    ⟨"pico", "p", 1 / 10 ^ 12⟩,
    ⟨"femto", "f", 1 / 10 ^ 15⟩,
    ⟨"atto", "a", 1 / 10 ^ 18⟩,
    ⟨"zepto", "z", 1 / 10 ^ 21⟩,
    ⟨"yocto", "y", 1 / 10 ^ 24⟩,
    ⟨"ronto", "r", 1 / 10 ^ 27⟩,
    ⟨"quecto", "q", 1 / 10 ^ 30⟩ ]

/-- `BaseUnit.using` (`src/measurement/__init__.py:553-555`): a new atomic unit
sharing the reference's dimension, with stored factor
`ref.si_factor * factor`. -/
def mbuUsing (ref : MBaseUnit) (symbol : String) (factor : ℚ) : MBaseUnit :=
  ⟨symbol, ref.dimension, ref.siFactor * factor⟩

/-- `DerivedUnit.using` (`src/measurement/__init__.py:237-244`): share the
reference's exponents, multiply the factors. -/
def mduUsing (ref : MDerivedUnit) (symbol : Option String) (factor : ℚ) : MDerivedUnit :=
  ⟨symbol, ref.unitExponents, ref.factor * factor⟩

/-- The possible arguments of `make_metric_units`: a `BaseUnit`, a
`DerivedUnit`, or a value of any other type (the `else` branch). -/
inductive MetricArg where
  | base (u : MBaseUnit)
  | derived (u : MDerivedUnit)
  | other
deriving Repr

/-- `make_metric_units` (`src/measurement/units/metric_utils.py:45-66`): one
sibling per prefix-table row, in table order.  For an atomic unit the `using`
call receives `factor=unit.si_factor * prefix.factor` and `using` itself
multiplies by `ref.si_factor` again; likewise the compound branch passes
`unit.factor * prefix.factor` into a `using` that multiplies by `ref.factor`.
A compound unit's `None` symbol would make the Python concatenation
`prefix.symbol + unit.symbol` raise; catalog callers always pass named units,
modelled by `Option.getD ""`.  Any other argument raises `TypeError`. -/
def makeMetricUnits (arg : MetricArg) : Except String (List MBaseUnit ⊕ List MDerivedUnit) :=
  match arg with
  | .base u =>
      .ok (.inl (metricPrefixTable.map (fun p =>
        mbuUsing u (p.symbol ++ u.symbol) (u.siFactor * p.factor))))
  | .derived u =>
      .ok (.inr (metricPrefixTable.map (fun p =>
        mduUsing u (some (p.symbol ++ u.symbol.getD "")) (u.factor * p.factor))))
  | .other => .error "argument must be a BaseUnit or DerivedUnit"

end Measurement

namespace CurrentGen

/-- An atomic unit of the current generation (the generation of
`src/src/dimans/base_classes.py` and the offset-carrying catalogs).  Its
`si_factor()` is the stored factor and its `si_offset()` is 0; the class body
itself is not under `src`, these two facts are the spec's §4.3. -/
structure CBaseUnit where
  symbol : String
  dimension : DimAns.Dimension
  factor : ℚ
deriving DecidableEq, Repr

/-- Modelled from the spec: `DerivedUnit` of the current generation (the class
constructed by `src/dimans/units/si_derived/celsius.py` and
`src/src/dimans/units/us/fahrenheit.py` with four positional arguments) is not
under `src`; per spec §4.4 it carries an optional symbol, the exponent map, an
overall factor, and an overall additive offset. -/
structure CDerivedUnit where
  symbol : Option String
  unitExponents : List (CBaseUnit × ℚ)
  factor : ℚ
  offset : ℚ
deriving DecidableEq, Repr

/-- Modelled from the spec: `si_factor()` of the current generation's
`DerivedUnit` (spec §4.4, pinned by `src/tests/test_derivedunit.py`,
`test_derived_unit_si_parameters`):
`factor * Π(atomic_unit.si_factor() ** exponent)`. -/
def cSiFactor (u : CDerivedUnit) : ℚ :=
  u.unitExponents.foldl (fun f p => f * pyPowQ p.1.factor p.2) u.factor

/-- Modelled from the spec: `si_offset()` of the current generation's
`DerivedUnit` (spec §4.4): the stored offset, verbatim. -/
def cSiOffset (u : CDerivedUnit) : ℚ := u.offset

/-- Modelled from the spec: `dimensions()` of the current generation's
`DerivedUnit` (spec §4.4): combine, per distinct dimension, the exponents of
every entry sharing that dimension, dropping zero sums — the same accumulation
as `DimansCore.dimensionMap`. -/
def cDimensionMap (u : CDerivedUnit) : DimMap :=
  u.unitExponents.foldl (fun m p => dmStep m p.1.dimension p.2) []

/-- `Unit.conversion_parameters_to` (`src/src/dimans/base_classes.py:46-64`):
requires equal dimensions, then returns the multiplicative factor
`from_factor / to_factor` and the additive term — `0` when both offsets are
zero, otherwise `from_offset * from_factor / to_factor - to_offset`.
(`dimensions()` equality is the `Dimensions` class's structural map equality,
spec §3; that module is not under `src`.) -/
def conversionParametersTo (a b : CDerivedUnit) : Except String (ℚ × ℚ) :=
  if dmEq (cDimensionMap a) (cDimensionMap b) then
    let fromFactor := cSiFactor a
    let toFactor := cSiFactor b
    let fromOffset := cSiOffset a
    let toOffset := cSiOffset b
    if toOffset = 0 ∧ fromOffset = 0 then .ok (fromFactor / toFactor, 0)
    else .ok (fromFactor / toFactor, fromOffset * fromFactor / toFactor - toOffset)
  else .error "units must have the same dimensions"

/-- A quantity of the current generation: exact-rational value and unit. -/
structure CQuantity where
  value : ℚ
  unit : CDerivedUnit
deriving DecidableEq, Repr

/-- Modelled from the spec: `Quantity.convert_to` of the current generation
(spec §4.5; the class body is not under `src`): compute `(factor, additive)`
via `conversion_parameters_to` from this quantity's unit to the target and
return `Quantity(value*factor + additive, target_unit)`; the dimension check
lives in `conversion_parameters_to`. -/
def cConvertTo (q : CQuantity) (target : CDerivedUnit) : Except String CQuantity :=
  (conversionParametersTo q.unit target).map (fun fa => ⟨q.value * fa.1 + fa.2, target⟩)

/-- The temperature dimension (identity-compared; `Dimension.TEMPERATURE` /
the registry entry). -/
def temperatureDim : DimAns.Dimension := ⟨5⟩

/-- `kelvin` (`src/dimans/units/si_base/temperature.py`):
`BaseUnit("K", TEMPERATURE, Fraction(1))`. -/
def kelvin : CBaseUnit := ⟨"K", temperatureDim, 1⟩

/-- `kelvin` widened to compound form (`as_derived_unit`, spec §4.2's canonical
widening: exponent map `{kelvin: 1}`, factor 1, offset 0). -/
def kelvinDU : CDerivedUnit := ⟨none, [(kelvin, 1)], 1, 0⟩

/-- `celsius` (`src/dimans/units/si_derived/celsius.py:10-15`):
`DerivedUnit("Â°C", {kelvin: Fraction(1)}, Fraction(1), Fraction(27315, 100))`
(the symbol string is the garbled byte sequence found in the source). -/
def celsius : CDerivedUnit := ⟨some "Â°C", [(kelvin, 1)], 1, 27315 / 100⟩

/-- `fahrenheit` (`src/src/dimans/units/us/fahrenheit.py:10-15`, bound to the
name `celsius` in its module):
`DerivedUnit("Â°F", {kelvin: Fraction(1)}, Fraction(5, 9), Fraction(45967, 100))`. -/
def fahrenheit : CDerivedUnit := ⟨some "Â°F", [(kelvin, 1)], 5 / 9, 45967 / 100⟩

end CurrentGen

namespace Cli

/-- Lexicographic comparison of character lists by code point, the order Python
uses to sort strings. -/
def charListLe : List Char → List Char → Bool
  | [], _ => true
  | _ :: _, [] => false
  | c :: cs, d :: ds =>
      if c < d then true
      else if c = d then charListLe cs ds else false

/-- String comparison by code points. -/
def strLe (a b : String) : Bool := charListLe a.data b.data

/-- Insert into a `strLe`-sorted list, keeping earlier-inserted equal elements
first (stability, as Python's `sort`). -/
def strInsert (a : String) : List String → List String
  | [] => [a]
  | b :: bs => if strLe a b then a :: b :: bs else b :: strInsert a bs

/-- Insertion sort by `strLe`; models `ordered_allowed_token_names.sort()`. -/
def strSort : List String → List String
  | [] => []
  | x :: xs => strInsert x (strSort xs)

/-- The characters Python's `str.strip()` removes by default (the ASCII
whitespace subset; no input in this development carries other Unicode
whitespace). -/
def isPySpace (c : Char) : Bool :=
  c == ' ' || c == '\t' || c == '\n' || c == '\r' || c == '\x0B' || c == '\x0C'

/-- Python `str.strip()`: drop leading and trailing whitespace. -/
def pyStrip (s : String) : String :=
  String.mk (((s.data.dropWhile isPySpace).reverse.dropWhile isPySpace).reverse)

/-- `' ' * n`. -/
def spaces (n : Nat) : String := String.mk (List.replicate n ' ')

/-- `'v' * n` — the marker characters the handler writes under the offending
column span (the result label sits *above* the input line, so the markers
point downwards). -/
def markers (n : Nat) : String := String.mk (List.replicate n 'v')

/-- The `lark.UnexpectedInput` subclasses distinguished by
`on_line_input_changed` (`src/src/dimans/cli/__init__.py:202-220`).  Token and
character values are stored already `repr`-formatted (the handler interpolates
them with `!r`); `allowed` holds the relevant acceptable-token-name set
(`accepts | expected`, `allowed`, or `expected`) as a duplicate-free list, the
model of a Python `set`. -/
inductive ParseError where
  | unexpectedToken (tokenType : String) (tokenValueRepr : String) (tokenLen : Nat)
      (allowed : List String) (column : Nat)
  | unexpectedCharacters (charRepr : String) (allowed : List String) (column : Nat)
  | unexpectedEOF (expected : List String) (column : Nat)
  | otherUnexpected (column : Nat)
deriving Repr

/-- The per-kind data the handler computes before building the error text. -/
structure ErrParts where
  size : Nat
  message : String
  allowed : List String
  column : Nat
deriving Repr

/-- The `isinstance` chain of `on_line_input_changed`
(`src/src/dimans/cli/__init__.py:205-220`): size, message and allowed set per
error kind (`size = max(len(e.token), 1)` for a token error, else 1). -/
def parseErrorParts : ParseError → ErrParts
  | .unexpectedToken ty v len al col =>
      ⟨max len 1, "Unexpected " ++ ty ++ " token " ++ v, al, col⟩
  | .unexpectedCharacters ch al col => ⟨1, "No terminal matches " ++ ch, al, col⟩
  | .unexpectedEOF ex col => ⟨1, "Unexpected EOF", ex, col⟩
  | .otherUnexpected col => ⟨1, "Unexpected input", [], col⟩

/-- The error-text assembly of `on_line_input_changed`
(`src/src/dimans/cli/__init__.py:222-234`): the message and an `Expected` part
(the single acceptable kind inline, or an `Expected one of:` line followed by
the sorted, comma-joined list), then — when the column is positive — a line of
spaces and `'v' * size`, and a final `strip()`. -/
def renderFromParts (p : ErrParts) : String :=
  let em := p.message ++ ": "
  let em :=
    if p.allowed.length = 1 then em ++ "Expected " ++ p.allowed.headD "" ++ "\n"
    else em ++ "Expected one of:\n" ++ String.intercalate ", " (strSort p.allowed) ++ "\n"
  let em :=
    if 0 < p.column then em ++ spaces (p.column - 1) ++ markers p.size ++ "\n" else em
  pyStrip em

/-- Parse-error rendering, end to end. -/
def renderParseError (e : ParseError) : String := renderFromParts (parseErrorParts e)

/-- The failing object attached to a `lark.exceptions.VisitError`: a tree with
`meta.line/column/end_column`, or a token whose `column`/`end_column` may be
missing (`None`, modelled as `none`). -/
inductive EvalSite where
  | tree (line column endColumn : Nat)
  | token (line : Nat) (column endColumn : Option Nat)
deriving Repr

/-- An evaluation-time failure as the handler sees it: the site metadata and
the already-selected message (`CalcError.msg`, an overflow's `args[1]`, or
`str(orig_exc)` — `src/src/dimans/cli/__init__.py:261-266`). -/
structure EvalError where
  site : EvalSite
  message : String
deriving Repr

/-- Python `e.obj.column or 1`: `None` and `0` are falsy. -/
def pyOrOne : Option Nat → Nat
  | some n => if n = 0 then 1 else n
  | none => 1

/-- Column and caret-span size for an evaluation error
(`src/src/dimans/cli/__init__.py:248-259`): from a tree's recorded
`column`/`end_column`, or from a token's, falling back to size 1 when either
coordinate is missing or zero (Python truthiness of `end_column and column`). -/
def evalColumnSize : EvalSite → Nat × Nat
  | .tree _ col endCol => (col, endCol - col)
  | .token _ col endCol =>
      (pyOrOne col,
        match endCol, col with
        | some e, some c => if e ≠ 0 ∧ c ≠ 0 then e - c else 1
        | _, _ => 1)

/-- Evaluation-error rendering (`src/src/dimans/cli/__init__.py:268-271`): the
failure message, a newline, then spaces and `'v' * size` under the offending
span.  No `strip()` here. -/
def renderEvalError (e : EvalError) : String :=
  let cs := evalColumnSize e.site
  e.message ++ "\n" ++ spaces (cs.1 - 1) ++ markers cs.2

/-- The calculator's parser/evaluator surface as the UI handlers use it.  The
grammar and evaluator module (`.parser`) is the external grammar resource and
is not under `src`; the handlers only call `parser.parse`,
`evaluator.transform`, the `find_data("func")` scan, and `represent_result`,
so those are the parameters. -/
structure CalcEnv (Tree Res : Type) where
  parse : String → Except ParseError Tree
  evalTree : Tree → Except EvalError Res
  funcNames : Tree → List String
  represent : Tree → Res → String

/-- The observable state the two handlers touch: the evaluator's append-only
`results` history, the input widget's text and `error`/`success` classes, and
the result label's text and `error` class. -/
structure AppState (Tree Res : Type) where
  results : List (String × Tree × Res)
  inputValue : String
  inputError : Bool
  inputSuccess : Bool
  labelText : String
  labelError : Bool

/-- `on_line_input_changed` (`src/src/dimans/cli/__init__.py:188-275`): clear
the classes; an empty line clears the label; a parse failure marks the input
and label `error` and renders the parse error; a line containing a syntactic
`exit` call is marked `success` without evaluating; an evaluation failure
renders the evaluation error (no class change); otherwise mark `success` and
show the represented result.  The evaluator's `results` list is never
touched. -/
def onLineInputChanged {Tree Res : Type} (env : CalcEnv Tree Res)
    (s : AppState Tree Res) (newValue : String) : AppState Tree Res :=
  let s := { s with inputValue := newValue, inputError := false, inputSuccess := false,
                    labelError := false }
  if newValue = "" then { s with labelText := "" }
  else
    match env.parse newValue with
    | .error e =>
        { s with inputError := true, labelError := true, labelText := renderParseError e }
    | .ok tree =>
        if (env.funcNames tree).contains "exit" then
          { s with inputSuccess := true, labelText := "<Submitting will exit>" }
        else
          match env.evalTree tree with
          | .error e => { s with labelText := renderEvalError e }
          | .ok res => { s with inputSuccess := true, labelText := env.represent tree res }

/-- `on_line_input_submitted` (`src/src/dimans/cli/__init__.py:277-295`): only
honoured when the input currently has the `success` class; the line is
re-parsed and re-evaluated, and only if both succeed is one
`(source, parsed, result)` triple appended to `evaluator.results` and the
input cleared.  Any failure leaves the state untouched. -/
def onLineInputSubmitted {Tree Res : Type} (env : CalcEnv Tree Res)
    (s : AppState Tree Res) : AppState Tree Res :=
  if s.inputSuccess then
    match env.parse s.inputValue with
    | .error _ => s
    | .ok tree =>
        match env.evalTree tree with
        | .error _ => s
        | .ok res =>
            { s with results := s.results ++ [(s.inputValue, tree, res)], inputValue := "" }
  else s

end Cli

/-! Concrete catalog samples and auxiliary definitions used by the theorems
below. -/

/-- The length dimension (`dimensions["length"]`, compared by identity). -/
def lengthDim : Dimension := ⟨1⟩

namespace DimansCore

/-- `meter` (`src/dimans/units/si_base/length.py`):
`BaseUnit("m", length, Fraction(1))`. -/
def meter : BaseUnit := ⟨"m", lengthDim, 1, 0⟩

/-- A kilometre-scale atomic length unit, `BaseUnit.using(meter, "km", 1000)`
(`src/dimans/__init__.py:501-506`): same dimension, factor
`meter.si_factor() * 1000`; a fresh object. -/
def kilometer : BaseUnit := ⟨"km", lengthDim, 1000, 1⟩

/-- A second, distinct `BaseUnit("m", length, Fraction(1))` instance: same
symbol, dimension and factor as `meter`, but a different Python object. -/
def meterTwin : BaseUnit := ⟨"m", lengthDim, 1, 2⟩

/-- `meter` widened to compound form. -/
def meterU : DerivedUnit := buAsDerivedUnit meter none

/-- `kilometer` widened to compound form. -/
def kilometerU : DerivedUnit := buAsDerivedUnit kilometer none

/-- The spec's canonical-form predicate on a compound unit: `unit_exponents`
stores no entry whose exponent is exactly zero. -/
def zeroFree (u : DerivedUnit) : Bool := u.unitExponents.all (fun p => p.2 != 0)

end DimansCore

namespace Measurement

/-- A sample atomic unit whose stored `si_factor` is 2 (for example a unit
built with `BaseUnit.using(canonical, "u", 2)`). -/
def sampleAtom : MBaseUnit := ⟨"u", DimAns.lengthDim, 2⟩

/-- The stored factor of the first returned metric sibling (0 when the result
is not a non-empty atomic-unit list). -/
def firstFactor (r : Except String (List MBaseUnit ⊕ List MDerivedUnit)) : ℚ :=
  match r with
  | .ok (.inl (u :: _)) => u.siFactor
  | _ => 0

end Measurement

namespace Cli

/-- A trivial parser/evaluator environment over unit trees and results, used
to instantiate the handler theorems at concrete inputs. -/
def unitEnv : CalcEnv Unit Unit :=
  ⟨fun _ => .ok (), fun _ => .ok (), fun _ => [], fun _ _ => "r"⟩

/-- A sample application state whose input line is `"1"` and whose input is in
the `success` state. -/
def sampleState : AppState Unit Unit :=
  ⟨[], "1", false, true, "", false⟩

end Cli

/-! Helper lemmas. -/

/-- Python dict equality of dimension maps is symmetric. -/
lemma dmEq_symm (x y : DimMap) : dmEq x y = dmEq y x := by
  simp [dmEq, Bool.and_comm]

/-! Claim theorems. -/

/-- C1: for any two unit-like values A and B with equal Dimensions,
`conversion_parameters_to` returns `factor = A.si_factor() / B.si_factor()`
and `additive = 0` when both offsets are zero, else
`additive = A.si_offset() * factor - B.si_offset()`; a value `v` in A denotes
the same SI magnitude as `v * factor + additive` in B (under the pre-scale
convention `si = (value + offset) * si_factor`); unequal Dimensions signal a
dimension-mismatch error instead. -/
theorem conversion_parameters_spec (a b : CurrentGen.CDerivedUnit) :
    (dmEq (CurrentGen.cDimensionMap a) (CurrentGen.cDimensionMap b) = true →
      CurrentGen.conversionParametersTo a b =
        .ok (CurrentGen.cSiFactor a / CurrentGen.cSiFactor b,
          if CurrentGen.cSiOffset a = 0 ∧ CurrentGen.cSiOffset b = 0 then 0
          else CurrentGen.cSiOffset a * (CurrentGen.cSiFactor a / CurrentGen.cSiFactor b)
            - CurrentGen.cSiOffset b))
    ∧ (dmEq (CurrentGen.cDimensionMap a) (CurrentGen.cDimensionMap b) = false →
      CurrentGen.conversionParametersTo a b = .error "units must have the same dimensions")
    ∧ (∀ f ad, CurrentGen.cSiFactor b ≠ 0 →
        CurrentGen.conversionParametersTo a b = .ok (f, ad) →
        ∀ v : ℚ, (v + CurrentGen.cSiOffset a) * CurrentGen.cSiFactor a
          = (v * f + ad + CurrentGen.cSiOffset b) * CurrentGen.cSiFactor b) := by
  refine ⟨?_, ?_, ?_⟩
  · intro h
    simp only [CurrentGen.conversionParametersTo, h, if_true]
    by_cases h1 : CurrentGen.cSiOffset a = 0 <;> by_cases h2 : CurrentGen.cSiOffset b = 0 <;>
      simp [h1, h2, mul_div_assoc]
  · intro h
    simp [CurrentGen.conversionParametersTo, h]
  · intro f ad hb hok v
    unfold CurrentGen.conversionParametersTo at hok
    by_cases hd : dmEq (CurrentGen.cDimensionMap a) (CurrentGen.cDimensionMap b) = true
    · rw [if_pos hd] at hok
      by_cases hz : CurrentGen.cSiOffset b = 0 ∧ CurrentGen.cSiOffset a = 0
      · rw [if_pos hz] at hok
        simp only [Except.ok.injEq, Prod.mk.injEq] at hok
        obtain ⟨hf, ha⟩ := hok
        subst hf ha
        rw [hz.1, hz.2]
        field_simp
      · rw [if_neg hz] at hok
        simp only [Except.ok.injEq, Prod.mk.injEq] at hok
        obtain ⟨hf, ha⟩ := hok
        subst hf ha
        field_simp
        ring
    · simp [hd] at hok

/-- Witness for C1: the conversion parameters from `celsius` to the kelvin
compound unit, and the SI-magnitude identity at the value 0. -/
theorem conversion_parameters_spec_witness :
    dmEq (CurrentGen.cDimensionMap CurrentGen.celsius)
        (CurrentGen.cDimensionMap CurrentGen.kelvinDU) = true
    ∧ CurrentGen.cSiFactor CurrentGen.kelvinDU ≠ 0
    ∧ CurrentGen.conversionParametersTo CurrentGen.celsius CurrentGen.kelvinDU
        = .ok (CurrentGen.cSiFactor CurrentGen.celsius / CurrentGen.cSiFactor CurrentGen.kelvinDU,
          if CurrentGen.cSiOffset CurrentGen.celsius = 0
              ∧ CurrentGen.cSiOffset CurrentGen.kelvinDU = 0 then 0
          else CurrentGen.cSiOffset CurrentGen.celsius
              * (CurrentGen.cSiFactor CurrentGen.celsius / CurrentGen.cSiFactor CurrentGen.kelvinDU)
            - CurrentGen.cSiOffset CurrentGen.kelvinDU)
    ∧ ((0 : ℚ) + CurrentGen.cSiOffset CurrentGen.celsius) * CurrentGen.cSiFactor CurrentGen.celsius
        = (0 * 1 + 27315 / 100 + CurrentGen.cSiOffset CurrentGen.kelvinDU)
            * CurrentGen.cSiFactor CurrentGen.kelvinDU := by
  have hdm : dmEq (CurrentGen.cDimensionMap CurrentGen.celsius)
      (CurrentGen.cDimensionMap CurrentGen.kelvinDU) = true := by
    norm_num [dmEq, CurrentGen.cDimensionMap, CurrentGen.celsius, CurrentGen.kelvinDU,
      CurrentGen.kelvin, dmStep, dmGet?]
  have hb : CurrentGen.cSiFactor CurrentGen.kelvinDU ≠ 0 := by
    norm_num [CurrentGen.cSiFactor, CurrentGen.kelvinDU, CurrentGen.kelvin, pyPowQ]
  have hok : CurrentGen.conversionParametersTo CurrentGen.celsius CurrentGen.kelvinDU
      = .ok (1, 27315 / 100) := by
    norm_num [CurrentGen.conversionParametersTo, dmEq, CurrentGen.cDimensionMap,
      CurrentGen.celsius, CurrentGen.kelvinDU, CurrentGen.kelvin, dmStep, dmGet?,
      CurrentGen.cSiFactor, CurrentGen.cSiOffset, pyPowQ]
  exact ⟨hdm, hb,
    (conversion_parameters_spec CurrentGen.celsius CurrentGen.kelvinDU).1 hdm,
    (conversion_parameters_spec CurrentGen.celsius CurrentGen.kelvinDU).2.2
      1 (27315 / 100) hb hok 0⟩

/-- C2: with the catalog `celsius` (kelvin-based, factor 1, offset 273.15) and
`fahrenheit` (kelvin-based, factor 5/9, offset 459.67),
`Quantity(0, celsius).convert_to(kelvin) = Quantity(27315/100, kelvin)` and
`Quantity(32, fahrenheit).convert_to(celsius) = Quantity(0, celsius)`, exactly
in rational arithmetic. -/
theorem affine_conversion_end_to_end :
    CurrentGen.cConvertTo ⟨0, CurrentGen.celsius⟩ CurrentGen.kelvinDU
      = .ok ⟨27315 / 100, CurrentGen.kelvinDU⟩
    ∧ CurrentGen.cConvertTo ⟨32, CurrentGen.fahrenheit⟩ CurrentGen.celsius
      = .ok ⟨0, CurrentGen.celsius⟩ := by
  constructor
  · norm_num [CurrentGen.cConvertTo, CurrentGen.conversionParametersTo, dmEq,
      CurrentGen.cDimensionMap, CurrentGen.celsius, CurrentGen.kelvinDU, CurrentGen.kelvin,
      dmStep, dmGet?, CurrentGen.cSiFactor, CurrentGen.cSiOffset, pyPowQ, Except.map]
  · norm_num [CurrentGen.cConvertTo, CurrentGen.conversionParametersTo, dmEq,
      CurrentGen.cDimensionMap, CurrentGen.celsius, CurrentGen.fahrenheit, CurrentGen.kelvin,
      dmStep, dmGet?, CurrentGen.cSiFactor, CurrentGen.cSiOffset, pyPowQ, Except.map]

/-- Counterexample to C3 as stated: `divmod(Quantity(5000, m), Quantity(2, km))`
yields the remainder `Quantity(1, km)` — the remainder is expressed in the
*right* operand's unit (`km`), not the left operand's unit (`m`), because
`__divmod__`/`__mod__` convert the left operand into the right operand's
unit. -/
theorem divmod_direction_counterexample :
    DimansCore.qDivmod ⟨5000, DimansCore.meterU⟩ ⟨2, DimansCore.kilometerU⟩
      = .ok (2, ⟨1, DimansCore.kilometerU⟩)
    ∧ DimansCore.qMod ⟨5000, DimansCore.meterU⟩ ⟨2, DimansCore.kilometerU⟩
      = .ok ⟨1, DimansCore.kilometerU⟩
    ∧ DimansCore.kilometerU ≠ DimansCore.meterU := by
  refine ⟨?_, ?_, by decide⟩
  · norm_num [DimansCore.qDivmod, DimansCore.duPyEq, dmEq, DimansCore.dimensionMap,
      DimansCore.meterU, DimansCore.kilometerU, DimansCore.buAsDerivedUnit, dmStep, dmGet?,
      DimansCore.meter, DimansCore.kilometer, DimansCore.duSiFactor, DimansCore.buSiFactor,
      pyPowQ, DimansCore.convertTo, DimansCore.conversionFactorTo, Except.map,
      DimansCore.pyMod, Int.floor_eq_iff]
  · norm_num [DimansCore.qMod, DimansCore.duPyEq, dmEq, DimansCore.dimensionMap,
      DimansCore.meterU, DimansCore.kilometerU, DimansCore.buAsDerivedUnit, dmStep, dmGet?,
      DimansCore.meter, DimansCore.kilometer, DimansCore.duSiFactor, DimansCore.buSiFactor,
      pyPowQ, DimansCore.convertTo, DimansCore.conversionFactorTo, Except.map,
      DimansCore.pyMod, Int.floor_eq_iff]

/-- C3 (amended): between two Quantities with dimensionally-compatible but
different (`__eq__`-unequal) units, `divmod` and `%` convert the *left*
operand into the *right* operand's unit, so quotient and remainder are
computed on the converted value and the remainder is expressed in the right
operand's unit; `//` recomputes the unit as the quotient of the two units,
without converting either operand, and collapses to a bare number (floor
quotient times the residual unit factor) when the quotient unit's dimension
map is empty. -/
theorem divmod_mod_floordiv_amended (a b : DimansCore.Quantity) :
    (DimansCore.duPyEq a.unit b.unit = false →
      dmEq (DimansCore.dimensionMap a.unit) (DimansCore.dimensionMap b.unit) = true →
      DimansCore.qDivmod a b
        = .ok (⌊a.value * (DimansCore.duSiFactor a.unit / DimansCore.duSiFactor b.unit)
              / b.value⌋,
            ⟨DimansCore.pyMod
                (a.value * (DimansCore.duSiFactor a.unit / DimansCore.duSiFactor b.unit))
                b.value,
              b.unit⟩)
      ∧ DimansCore.qMod a b
        = .ok ⟨DimansCore.pyMod
              (a.value * (DimansCore.duSiFactor a.unit / DimansCore.duSiFactor b.unit))
              b.value,
            b.unit⟩)
    ∧ DimansCore.qFloorDiv a b =
        (if (DimansCore.dimensionMap (DimansCore.duDiv a.unit b.unit)).isEmpty
         then DimansCore.QVal.num ((⌊a.value / b.value⌋ : ℚ)
            * (DimansCore.duDiv a.unit b.unit).factor)
         else DimansCore.QVal.quant ⟨(⌊a.value / b.value⌋ : ℚ),
            DimansCore.duDiv a.unit b.unit⟩) := by
  refine ⟨?_, rfl⟩
  intro h hd
  constructor
  · simp [DimansCore.qDivmod, h, DimansCore.convertTo, hd, DimansCore.conversionFactorTo,
      Except.map]
  · simp [DimansCore.qMod, h, DimansCore.convertTo, hd, DimansCore.conversionFactorTo,
      Except.map]

/-- Witness for C3 (amended), at `Quantity(5000, m)` and `Quantity(2, km)`. -/
theorem divmod_mod_floordiv_amended_witness :
    DimansCore.duPyEq DimansCore.meterU DimansCore.kilometerU = false
    ∧ dmEq (DimansCore.dimensionMap DimansCore.meterU)
        (DimansCore.dimensionMap DimansCore.kilometerU) = true
    ∧ (DimansCore.qDivmod ⟨5000, DimansCore.meterU⟩ ⟨2, DimansCore.kilometerU⟩
        = .ok (⌊(5000 : ℚ)
              * (DimansCore.duSiFactor DimansCore.meterU
                  / DimansCore.duSiFactor DimansCore.kilometerU) / 2⌋,
            ⟨DimansCore.pyMod
                ((5000 : ℚ) * (DimansCore.duSiFactor DimansCore.meterU
                  / DimansCore.duSiFactor DimansCore.kilometerU)) 2,
              DimansCore.kilometerU⟩)
      ∧ DimansCore.qMod ⟨5000, DimansCore.meterU⟩ ⟨2, DimansCore.kilometerU⟩
        = .ok ⟨DimansCore.pyMod
              ((5000 : ℚ) * (DimansCore.duSiFactor DimansCore.meterU
                  / DimansCore.duSiFactor DimansCore.kilometerU)) 2,
            DimansCore.kilometerU⟩) := by
  have h1 : DimansCore.duPyEq DimansCore.meterU DimansCore.kilometerU = false := by
    norm_num [DimansCore.duPyEq, dmEq, DimansCore.dimensionMap, DimansCore.meterU,
      DimansCore.kilometerU, DimansCore.buAsDerivedUnit, dmStep, dmGet?, DimansCore.meter,
      DimansCore.kilometer, DimansCore.duSiFactor, DimansCore.buSiFactor, pyPowQ]
  have h2 : dmEq (DimansCore.dimensionMap DimansCore.meterU)
      (DimansCore.dimensionMap DimansCore.kilometerU) = true := by
    norm_num [dmEq, DimansCore.dimensionMap, DimansCore.meterU, DimansCore.kilometerU,
      DimansCore.buAsDerivedUnit, dmStep, dmGet?, DimansCore.meter, DimansCore.kilometer]
  exact ⟨h1, h2,
    (divmod_mod_floordiv_amended ⟨5000, DimansCore.meterU⟩ ⟨2, DimansCore.kilometerU⟩).1 h1 h2⟩

/-- C4: Quantity addition: with `__eq__`-equal units the values add under the
left unit; with unequal units of equal dimension map, the right operand is
converted into the left operand's unit (scaling its value by the ratio of SI
factors) and the sum carries the left unit; with unequal dimension maps a
dimension-mismatch error is signalled; and subtraction is addition of the
additive inverse. -/
theorem quantity_addition_spec (a b : DimansCore.Quantity) :
    (DimansCore.duPyEq a.unit b.unit = true →
      DimansCore.qAdd a b = .ok ⟨a.value + b.value, a.unit⟩)
    ∧ (DimansCore.duPyEq a.unit b.unit = false →
        dmEq (DimansCore.dimensionMap a.unit) (DimansCore.dimensionMap b.unit) = true →
        DimansCore.qAdd a b = .ok ⟨a.value
          + b.value * (DimansCore.duSiFactor b.unit / DimansCore.duSiFactor a.unit), a.unit⟩)
    ∧ (dmEq (DimansCore.dimensionMap a.unit) (DimansCore.dimensionMap b.unit) = false →
        DimansCore.qAdd a b = .error "target unit must have the same dimensions")
    ∧ DimansCore.qSub a b = DimansCore.qAdd a ⟨-b.value, b.unit⟩ := by
  refine ⟨?_, ?_, ?_, rfl⟩
  · intro h
    simp [DimansCore.qAdd, h]
  · intro h hd
    have hd' : dmEq (DimansCore.dimensionMap b.unit) (DimansCore.dimensionMap a.unit)
        = true := by rwa [dmEq_symm]
    simp [DimansCore.qAdd, h, DimansCore.convertTo, hd', DimansCore.conversionFactorTo,
      Except.map]
  · intro hd
    have h : DimansCore.duPyEq a.unit b.unit = false := by
      simp [DimansCore.duPyEq, hd]
    have hd' : dmEq (DimansCore.dimensionMap b.unit) (DimansCore.dimensionMap a.unit)
        = false := by rwa [dmEq_symm]
    simp [DimansCore.qAdd, h, DimansCore.convertTo, hd', Except.map]

/-- Witness for C4, at `Quantity(5, m) + Quantity(3, km)`: the right operand
is converted and the sum carries the metre unit. -/
theorem quantity_addition_spec_witness :
    DimansCore.duPyEq DimansCore.meterU DimansCore.kilometerU = false
    ∧ dmEq (DimansCore.dimensionMap DimansCore.meterU)
        (DimansCore.dimensionMap DimansCore.kilometerU) = true
    ∧ DimansCore.qAdd ⟨5, DimansCore.meterU⟩ ⟨3, DimansCore.kilometerU⟩
        = .ok ⟨5 + 3 * (DimansCore.duSiFactor DimansCore.kilometerU
            / DimansCore.duSiFactor DimansCore.meterU), DimansCore.meterU⟩ := by
  have h1 : DimansCore.duPyEq DimansCore.meterU DimansCore.kilometerU = false := by
    norm_num [DimansCore.duPyEq, dmEq, DimansCore.dimensionMap, DimansCore.meterU,
      DimansCore.kilometerU, DimansCore.buAsDerivedUnit, dmStep, dmGet?, DimansCore.meter,
      DimansCore.kilometer, DimansCore.duSiFactor, DimansCore.buSiFactor, pyPowQ]
  have h2 : dmEq (DimansCore.dimensionMap DimansCore.meterU)
      (DimansCore.dimensionMap DimansCore.kilometerU) = true := by
    norm_num [dmEq, DimansCore.dimensionMap, DimansCore.meterU, DimansCore.kilometerU,
      DimansCore.buAsDerivedUnit, dmStep, dmGet?, DimansCore.meter, DimansCore.kilometer]
  exact ⟨h1, h2,
    (quantity_addition_spec ⟨5, DimansCore.meterU⟩ ⟨3, DimansCore.kilometerU⟩).2.1 h1 h2⟩

/-- C5: Quantity multiplication returns the bare number
`value_product * residual_factor` exactly when the composed unit's dimension
map is empty, and a Quantity in the composed unit otherwise; division is
multiplication by the multiplicative inverse; and
`Quantity(10, m) / Quantity(2, m)` is the bare number 5. -/
theorem quantity_mul_div_collapse :
    (∀ a b : DimansCore.Quantity,
      DimansCore.qMul a b =
        (if (DimansCore.dimensionMap (DimansCore.duMul a.unit b.unit)).isEmpty
         then DimansCore.QVal.num (a.value * b.value * (DimansCore.duMul a.unit b.unit).factor)
         else DimansCore.QVal.quant ⟨a.value * b.value, DimansCore.duMul a.unit b.unit⟩))
    ∧ (∀ a b : DimansCore.Quantity,
      DimansCore.qDiv a b
        = DimansCore.qMul a ⟨1 / b.value, DimansCore.duMulInv b.unit⟩)
    ∧ DimansCore.qDiv ⟨10, DimansCore.meterU⟩ ⟨2, DimansCore.meterU⟩
        = DimansCore.QVal.num 5 := by
  refine ⟨fun a b => rfl, fun a b => rfl, ?_⟩
  norm_num [DimansCore.qDiv, DimansCore.qMul, DimansCore.qMulInv, DimansCore.duMulInv,
    DimansCore.duMul, DimansCore.meterU, DimansCore.buAsDerivedUnit, DimansCore.meter,
    DimansCore.collectKeys, DimansCore.buPyEq, DimansCore.ueGet, DimansCore.dimensionMap,
    dmStep, dmGet?]

/-- C6: the code at the claim's failing input.  Two distinct
`BaseUnit("m", length, 1)` instances have equal dimension and equal
`si_factor()` values, and their widened compound forms compare equal, yet
`BaseUnit.__eq__` returns `False` on them: it compares the *bound methods*
`self.si_factor`/`other.si_factor` instead of calling them, and bound methods
of distinct instances are never equal. -/
theorem baseunit_eq_compares_methods :
    DimansCore.buPyEq DimansCore.meter DimansCore.meterTwin = false
    ∧ DimansCore.meter.dimension = DimansCore.meterTwin.dimension
    ∧ DimansCore.buSiFactor DimansCore.meter = DimansCore.buSiFactor DimansCore.meterTwin
    ∧ DimansCore.duPyEq (DimansCore.buAsDerivedUnit DimansCore.meter none)
        (DimansCore.buAsDerivedUnit DimansCore.meterTwin none) = true := by
  refine ⟨by decide, by decide, by decide, ?_⟩
  norm_num [DimansCore.duPyEq, dmEq, DimansCore.dimensionMap, DimansCore.buAsDerivedUnit,
    DimansCore.meter, DimansCore.meterTwin, dmStep, dmGet?, DimansCore.duSiFactor,
    DimansCore.buSiFactor, pyPowQ]

/-- Counterexample to C7 as stated: for an atomic unit `u` with
`si_factor = 2`, the first (quetta) sibling's stored factor is
`2 * (2 * 10^30) = 4·10^30`, not the claimed `u.si_factor() * 10^30 = 2·10^30`
— `make_metric_units` passes `unit.si_factor * prefix.factor` into `using`,
which multiplies by `ref.si_factor` again. -/
theorem make_metric_units_counterexample :
    Measurement.firstFactor (Measurement.makeMetricUnits (.base Measurement.sampleAtom))
      = 4 * 10 ^ 30
    ∧ Measurement.sampleAtom.siFactor * (10 : ℚ) ^ 30 = 2 * 10 ^ 30
    ∧ (4 * 10 ^ 30 : ℚ) ≠ 2 * 10 ^ 30 := by
  refine ⟨?_, by norm_num [Measurement.sampleAtom], by norm_num⟩
  norm_num [Measurement.firstFactor, Measurement.makeMetricUnits,
    Measurement.metricPrefixTable, Measurement.mbuUsing, Measurement.sampleAtom]

/-- C7 (amended): `make_metric_units` returns exactly 23 siblings in the
fixed quetta-to-quecto table order; for an atomic unit the sibling for prefix
`p` has symbol `p.symbol + u.symbol` and stored factor
`u.si_factor * (u.si_factor * p.factor)` (the `using` constructor multiplies
the passed factor `u.si_factor * p.factor` by `ref.si_factor` again — for the
catalog's roots, whose factor is 1, this coincides with the claimed
`u.si_factor() * p.factor`); for a compound unit, the exponents are unchanged
and the factor is `u.factor * (u.factor * p.factor)`; any other argument kind
signals a type error. -/
theorem make_metric_units_amended :
    (∀ u : Measurement.MBaseUnit,
      Measurement.makeMetricUnits (.base u)
        = .ok (.inl (Measurement.metricPrefixTable.map (fun p =>
            ⟨p.symbol ++ u.symbol, u.dimension, u.siFactor * (u.siFactor * p.factor)⟩))))
    ∧ (∀ u : Measurement.MDerivedUnit,
      Measurement.makeMetricUnits (.derived u)
        = .ok (.inr (Measurement.metricPrefixTable.map (fun p =>
            ⟨some (p.symbol ++ u.symbol.getD ""), u.unitExponents,
              u.factor * (u.factor * p.factor)⟩))))
    ∧ Measurement.makeMetricUnits .other
        = .error "argument must be a BaseUnit or DerivedUnit"
    ∧ Measurement.metricPrefixTable.length = 23
    ∧ Measurement.metricPrefixTable.map (fun p => p.name)
        = ["quetta", "yotta", "zetta", "exa", "peta", "tera", "giga", "mega", "kilo",
           "hecto", "deca", "deci", "centi", "milli", "micro", "nano", "pico", "femto",
           "atto", "zepto", "yocto", "ronto", "quecto"]
    ∧ Measurement.metricPrefixTable.map (fun p => p.factor)
        = [10 ^ 30, 10 ^ 24, 10 ^ 21, 10 ^ 18, 10 ^ 15, 10 ^ 12, 10 ^ 9, 10 ^ 6, 10 ^ 3,
           10 ^ 2, 10 ^ 1, 1 / 10 ^ 1, 1 / 10 ^ 2, 1 / 10 ^ 3, 1 / 10 ^ 6, 1 / 10 ^ 9,
           1 / 10 ^ 12, 1 / 10 ^ 15, 1 / 10 ^ 18, 1 / 10 ^ 21, 1 / 10 ^ 24, 1 / 10 ^ 27,
           1 / 10 ^ 30] := by
  exact ⟨fun u => rfl, fun u => rfl, rfl, rfl, rfl, rfl⟩

/-- Counterexample to C8 as stated: a compound unit reached by direct public
construction, `DerivedUnit(None, {m: Fraction(0)})`, stores a zero exponent;
so does `(m as compound) ** 0` — neither path normalises the map. -/
theorem zero_exponent_counterexample :
    DimansCore.zeroFree ⟨none, [(DimansCore.meter, 0)], 1⟩ = false
    ∧ DimansCore.zeroFree (DimansCore.duPow DimansCore.meterU 0) = false := by
  constructor
  · norm_num [DimansCore.zeroFree]
  · norm_num [DimansCore.zeroFree, DimansCore.duPow, DimansCore.meterU,
      DimansCore.buAsDerivedUnit]

/-- C8 (amended): the unit algebra preserves the canonical form —
multiplication and division never store a zero exponent, and
`multiplicative_inverse`, `power` with a nonzero exponent, `named` and `using`
preserve zero-freeness; direct construction and the zeroth power do not
normalise and are excluded. -/
theorem zero_exponent_amended :
    (∀ a b : DimansCore.DerivedUnit, DimansCore.zeroFree (DimansCore.duMul a b) = true)
    ∧ (∀ a b : DimansCore.DerivedUnit, DimansCore.zeroFree (DimansCore.duDiv a b) = true)
    ∧ (∀ u : DimansCore.DerivedUnit, DimansCore.zeroFree u = true →
        DimansCore.zeroFree (DimansCore.duMulInv u) = true)
    ∧ (∀ (u : DimansCore.DerivedUnit) (p : ℚ), p ≠ 0 → DimansCore.zeroFree u = true →
        DimansCore.zeroFree (DimansCore.duPow u p) = true)
    ∧ (∀ (s : String) (u : DimansCore.DerivedUnit), DimansCore.zeroFree u = true →
        DimansCore.zeroFree (DimansCore.duNamed s u) = true)
    ∧ (∀ (u : DimansCore.DerivedUnit) (s : Option String) (f : ℚ),
        DimansCore.zeroFree u = true → DimansCore.zeroFree (DimansCore.duUsing u s f) = true) := by
  have hmul : ∀ a b : DimansCore.DerivedUnit,
      DimansCore.zeroFree (DimansCore.duMul a b) = true := by
    intro a b
    simp only [DimansCore.zeroFree, DimansCore.duMul, List.all_eq_true]
    intro p hp
    simp only [List.mem_filterMap] at hp
    obtain ⟨u, _, hfn⟩ := hp
    by_cases he : DimansCore.ueGet a.unitExponents u + DimansCore.ueGet b.unitExponents u = 0
    · simp [he] at hfn
    · simp only [he, if_false, Option.some.injEq] at hfn
      subst hfn
      simpa using he
  refine ⟨hmul, fun a b => hmul a _, ?_, ?_, ?_, ?_⟩
  · intro u hu
    simp only [DimansCore.zeroFree, DimansCore.duMulInv, List.all_eq_true] at hu ⊢
    intro p hp
    simp only [List.mem_map] at hp
    obtain ⟨q, hq, rfl⟩ := hp
    have := hu q hq
    simp_all
  · intro u p hp hu
    simp only [DimansCore.zeroFree, DimansCore.duPow, List.all_eq_true] at hu ⊢
    intro q hq
    simp only [List.mem_map] at hq
    obtain ⟨r, hr, rfl⟩ := hq
    have := hu r hr
    simp_all [mul_ne_zero]
  · intro s u hu
    simpa [DimansCore.zeroFree, DimansCore.duNamed] using hu
  · intro u s f hu
    simpa [DimansCore.zeroFree, DimansCore.duUsing] using hu

/-- Witness for C8 (amended): concrete instances of the preserved invariant. -/
theorem zero_exponent_amended_witness :
    ((2 : ℚ) ≠ 0)
    ∧ DimansCore.zeroFree DimansCore.meterU = true
    ∧ DimansCore.zeroFree (DimansCore.duMul DimansCore.meterU DimansCore.kilometerU) = true
    ∧ DimansCore.zeroFree (DimansCore.duMulInv DimansCore.meterU) = true
    ∧ DimansCore.zeroFree (DimansCore.duPow DimansCore.meterU 2) = true := by
  have hm : DimansCore.zeroFree DimansCore.meterU = true := by
    norm_num [DimansCore.zeroFree, DimansCore.meterU, DimansCore.buAsDerivedUnit]
  exact ⟨by norm_num, hm,
    zero_exponent_amended.1 DimansCore.meterU DimansCore.kilometerU,
    zero_exponent_amended.2.2.1 DimansCore.meterU hm,
    zero_exponent_amended.2.2.2.1 DimansCore.meterU 2 (by norm_num) hm⟩

namespace Cli

/-- Lexicographic order on character lists is total. -/
lemma charListLe_total (a b : List Char) : charListLe a b = true ∨ charListLe b a = true := by
  induction a generalizing b with
  | nil => left; rfl
  | cons c cs ih =>
    cases b with
    | nil => right; rfl
    | cons d ds =>
      rcases lt_trichotomy c d with h | h | h
      · left; simp [charListLe, h]
      · subst h
        rcases ih ds with h' | h'
        · left; simp [charListLe, h']
        · right; simp [charListLe, h']
      · right; simp [charListLe, h]

/-- Lexicographic order on character lists is transitive. -/
lemma charListLe_trans (a b c : List Char) (hab : charListLe a b = true)
    (hbc : charListLe b c = true) : charListLe a c = true := by
  induction a generalizing b c with
  | nil => rfl
  | cons x xs ih =>
    cases b with
    | nil => simp [charListLe] at hab
    | cons y ys =>
      cases c with
      | nil => simp [charListLe] at hbc
      | cons z zs =>
        simp only [charListLe] at hab hbc ⊢
        by_cases hxy : x < y
        · by_cases hyz : y < z
          · simp [lt_trans hxy hyz]
          · by_cases hyz' : y = z
            · subst hyz'; simp [hxy]
            · simp [hyz, hyz'] at hbc
        · by_cases hxy' : x = y
          · subst hxy'
            simp only [hxy, if_false, if_pos rfl] at hab
            by_cases hxz : x < z
            · simp [hxz]
            · by_cases hxz' : x = z
              · subst hxz'
                simp only [hxz, if_false, if_pos rfl] at hbc ⊢
                exact ih ys zs hab hbc
              · simp [hxz, hxz'] at hbc
          · simp [hxy, hxy'] at hab

/-- `strLe` is total. -/
lemma strLe_total (a b : String) : strLe a b = true ∨ strLe b a = true :=
  charListLe_total a.data b.data

/-- `strLe` is transitive. -/
lemma strLe_trans (a b c : String) (h1 : strLe a b = true) (h2 : strLe b c = true) :
    strLe a c = true :=
  charListLe_trans a.data b.data c.data h1 h2

/-- Membership in an insertion. -/
lemma mem_strInsert (x a : String) (l : List String) :
    x ∈ strInsert a l ↔ x = a ∨ x ∈ l := by
  induction l with
  | nil => simp [strInsert]
  | cons b bs ih =>
    simp only [strInsert]
    by_cases h : strLe a b = true
    · simp [h]
    · have hb : strLe a b = false := by
        rwa [Bool.not_eq_true] at h
      simp only [hb, Bool.false_eq_true, if_false, List.mem_cons, ih]
      tauto

/-- Insertion preserves sortedness. -/
lemma pairwise_strInsert (a : String) (l : List String)
    (h : l.Pairwise (fun x y => strLe x y = true)) :
    (strInsert a l).Pairwise (fun x y => strLe x y = true) := by
  induction l with
  | nil => simp [strInsert]
  | cons b bs ih =>
    rw [List.pairwise_cons] at h
    obtain ⟨hb, hbs⟩ := h
    simp only [strInsert]
    by_cases hab : strLe a b = true
    · rw [if_pos hab]
      refine List.Pairwise.cons ?_ (List.Pairwise.cons hb hbs)
      intro x hx
      rcases List.mem_cons.mp hx with rfl | hx
      · exact hab
      · exact strLe_trans a b x hab (hb x hx)
    · rw [if_neg hab]
      refine List.Pairwise.cons ?_ (ih hbs)
      intro x hx
      rcases (mem_strInsert x a bs).mp hx with heq | hx
      · subst heq
        rcases strLe_total x b with h' | h'
        · exact absurd h' hab
        · exact h'
      · exact hb x hx

/-- The insertion sort is sorted. -/
lemma pairwise_strSort (l : List String) :
    (strSort l).Pairwise (fun x y => strLe x y = true) := by
  induction l with
  | nil => exact List.Pairwise.nil
  | cons a l ih => exact pairwise_strInsert a (strSort l) ih

/-- Insertion is a permutation of consing. -/
lemma perm_strInsert (a : String) (l : List String) :
    (strInsert a l).Perm (a :: l) := by
  induction l with
  | nil => rfl
  | cons b bs ih =>
    simp only [strInsert]
    by_cases h : strLe a b = true
    · rw [if_pos h]
    · rw [if_neg h]
      exact (ih.cons b).trans (List.Perm.swap a b bs)

/-- The insertion sort permutes its input. -/
lemma perm_strSort (l : List String) : (strSort l).Perm l := by
  induction l with
  | nil => rfl
  | cons a l ih => exact (perm_strInsert a (strSort l)).trans (ih.cons a)

/-- A newline is stripped whitespace. -/
lemma isPySpace_newline : isPySpace '\n' = true := by decide

/-- Stripping a string that starts and ends with non-whitespace and carries
one trailing newline removes exactly that newline. -/
lemma pyStrip_wrap (c d : Char) (xs : List Char)
    (hc : isPySpace c = false) (hd : isPySpace d = false) :
    pyStrip (String.mk (c :: (xs ++ [d, '\n']))) = String.mk (c :: (xs ++ [d])) := by
  unfold pyStrip
  have h1 : List.dropWhile isPySpace (c :: (xs ++ [d, '\n'])) = c :: (xs ++ [d, '\n']) := by
    rw [List.dropWhile_cons]
    simp [hc]
  have h2 : (c :: (xs ++ [d, '\n'])).reverse = '\n' :: d :: (xs.reverse ++ [c]) := by
    simp
  have h3 : List.dropWhile isPySpace ('\n' :: d :: (xs.reverse ++ [c]))
      = d :: (xs.reverse ++ [c]) := by
    rw [List.dropWhile_cons, if_pos isPySpace_newline, List.dropWhile_cons]
    simp [hd]
  have h4 : (d :: (xs.reverse ++ [c])).reverse = c :: (xs ++ [d]) := by
    simp
  rw [show (String.mk (c :: (xs ++ [d, '\n']))).data = c :: (xs ++ [d, '\n']) from rfl,
    h1, h2, h3, h4]

/-- The assembled error text when more than one (or zero) token kinds are
acceptable: the final `strip()` removes exactly the trailing newline. -/
lemma renderFromParts_many (msg : String) (c : Char) (cs : List Char)
    (hmsg : msg.data = c :: cs) (hc : isPySpace c = false)
    (al : List String) (col size : Nat) (hcol : 0 < col) (hsize : 0 < size)
    (hal : al.length ≠ 1) :
    renderFromParts ⟨size, msg, al, col⟩
      = msg ++ ": Expected one of:\n" ++ String.intercalate ", " (strSort al) ++ "\n"
        ++ spaces (col - 1) ++ markers size := by
  have hrep : List.replicate size 'v' = List.replicate (size - 1) 'v' ++ ['v'] := by
    conv_lhs => rw [show size = (size - 1) + 1 from (Nat.succ_pred_eq_of_pos hsize).symm]
    exact List.replicate_succ' (size - 1) 'v'
  unfold renderFromParts
  simp only [if_neg hal, if_pos hcol]
  have hA : msg ++ ": " ++ "Expected one of:\n" ++ String.intercalate ", " (strSort al) ++ "\n"
      ++ spaces (col - 1) ++ markers size ++ "\n"
      = String.mk (c :: ((cs ++ (": Expected one of:\n"
          ++ String.intercalate ", " (strSort al) ++ "\n").data
          ++ List.replicate (col - 1) ' ' ++ List.replicate (size - 1) 'v') ++ ['v', '\n'])) := by
    apply String.ext
    simp [String.data_append, hmsg, spaces, markers, hrep]
  rw [hA, pyStrip_wrap c 'v' _ hc (by decide)]
  apply String.ext
  simp [String.data_append, hmsg, spaces, markers, hrep]

/-- The assembled error text when exactly one token kind is acceptable. -/
lemma renderFromParts_one (msg : String) (c : Char) (cs : List Char)
    (hmsg : msg.data = c :: cs) (hc : isPySpace c = false)
    (al : List String) (col size : Nat) (hcol : 0 < col) (hsize : 0 < size)
    (hal : al.length = 1) :
    renderFromParts ⟨size, msg, al, col⟩
      = msg ++ ": Expected " ++ al.headD "" ++ "\n"
        ++ spaces (col - 1) ++ markers size := by
  have hrep : List.replicate size 'v' = List.replicate (size - 1) 'v' ++ ['v'] := by
    conv_lhs => rw [show size = (size - 1) + 1 from (Nat.succ_pred_eq_of_pos hsize).symm]
    exact List.replicate_succ' (size - 1) 'v'
  unfold renderFromParts
  simp only [if_pos hal, if_pos hcol]
  have hA : msg ++ ": " ++ "Expected " ++ al.headD "" ++ "\n"
      ++ spaces (col - 1) ++ markers size ++ "\n"
      = String.mk (c :: ((cs ++ (": Expected " ++ al.headD "" ++ "\n").data
          ++ List.replicate (col - 1) ' ' ++ List.replicate (size - 1) 'v') ++ ['v', '\n'])) := by
    apply String.ext
    simp [String.data_append, hmsg, spaces, markers, hrep]
  rw [hA, pyStrip_wrap c 'v' _ hc (by decide)]
  apply String.ext
  simp [String.data_append, hmsg, spaces, markers, hrep]

end Cli

/-- Counterexample to C9 as stated: a concrete rejected line's rendering ends
in a line of spaces followed by `'v'` characters, not `'^'` characters — the
handler writes `'v' * size` (the label sits above the input, so the markers
point down at it). -/
theorem error_rendering_counterexample :
    Cli.renderParseError (.unexpectedToken "NUMBER" "'x'" 2 ["B", "A"] 3)
      = "Unexpected NUMBER token 'x': Expected one of:\nA, B\n  vv"
    ∧ ((Cli.renderParseError (.unexpectedToken "NUMBER" "'x'" 2 ["B", "A"] 3)).data.contains '^')
      = false
    ∧ ("\n  ^^".data.isSuffixOf
        (Cli.renderParseError (.unexpectedToken "NUMBER" "'x'" 2 ["B", "A"] 3)).data) = false
    ∧ ("\n  vv".data.isSuffixOf
        (Cli.renderParseError (.unexpectedToken "NUMBER" "'x'" 2 ["B", "A"] 3)).data) = true := by
  refine ⟨by decide, by decide, by decide, by decide⟩

/-- C9 (amended): every rejected line renders as a message line, then — when
the number of acceptable token kinds is not one — the sorted, comma-joined
list of acceptable kinds, then a line of `column - 1` spaces followed by one
or more `'v'` (not `'^'`) characters under the offending column span;
evaluation-time failures render as the failure message followed by the same
`'v'`-marker line computed from the recorded column/end-column metadata. -/
theorem error_rendering_amended :
    (∀ (ty v : String) (len : Nat) (al : List String) (col : Nat), 0 < col → al.length ≠ 1 →
      Cli.renderParseError (.unexpectedToken ty v len al col)
        = "Unexpected " ++ ty ++ " token " ++ v ++ ": Expected one of:\n"
          ++ String.intercalate ", " (Cli.strSort al) ++ "\n"
          ++ Cli.spaces (col - 1) ++ Cli.markers (max len 1)
        ∧ (Cli.strSort al).Pairwise (fun x y => Cli.strLe x y = true)
        ∧ (Cli.strSort al).Perm al
        ∧ 0 < max len 1)
    ∧ (∀ (ty v : String) (len : Nat) (al : List String) (col : Nat), 0 < col → al.length = 1 →
      Cli.renderParseError (.unexpectedToken ty v len al col)
        = "Unexpected " ++ ty ++ " token " ++ v ++ ": Expected " ++ al.headD "" ++ "\n"
          ++ Cli.spaces (col - 1) ++ Cli.markers (max len 1))
    ∧ (∀ (ch : String) (al : List String) (col : Nat), 0 < col → al.length ≠ 1 →
      Cli.renderParseError (.unexpectedCharacters ch al col)
        = "No terminal matches " ++ ch ++ ": Expected one of:\n"
          ++ String.intercalate ", " (Cli.strSort al) ++ "\n"
          ++ Cli.spaces (col - 1) ++ Cli.markers 1)
    ∧ (∀ (ex : List String) (col : Nat), 0 < col → ex.length ≠ 1 →
      Cli.renderParseError (.unexpectedEOF ex col)
        = "Unexpected EOF" ++ ": Expected one of:\n"
          ++ String.intercalate ", " (Cli.strSort ex) ++ "\n"
          ++ Cli.spaces (col - 1) ++ Cli.markers 1)
    ∧ (∀ col : Nat, 0 < col →
      Cli.renderParseError (.otherUnexpected col)
        = "Unexpected input" ++ ": Expected one of:\n"
          ++ String.intercalate ", " (Cli.strSort []) ++ "\n"
          ++ Cli.spaces (col - 1) ++ Cli.markers 1)
    ∧ (∀ (msg : String) (line col endCol : Nat),
      Cli.renderEvalError ⟨.tree line col endCol, msg⟩
        = msg ++ "\n" ++ Cli.spaces (col - 1) ++ Cli.markers (endCol - col))
    ∧ (∀ (msg : String) (line col endCol : Nat), col ≠ 0 → endCol ≠ 0 →
      Cli.renderEvalError ⟨.token line (some col) (some endCol), msg⟩
        = msg ++ "\n" ++ Cli.spaces (col - 1) ++ Cli.markers (endCol - col)) := by
  refine ⟨?_, ?_, ?_, ?_, ?_, ?_, ?_⟩
  · intro ty v len al col hcol hal
    have hmsg : ("Unexpected " ++ ty ++ " token " ++ v).data
        = 'U' :: ("nexpected " ++ ty ++ " token " ++ v).data := by
      simp only [String.data_append, List.append_assoc]
      rfl
    have h := Cli.renderFromParts_many ("Unexpected " ++ ty ++ " token " ++ v) 'U'
      (("nexpected " ++ ty ++ " token " ++ v).data) hmsg (by decide) al col (max len 1)
      hcol (by positivity) hal
    refine ⟨?_, Cli.pairwise_strSort al, Cli.perm_strSort al, by positivity⟩
    rw [Cli.renderParseError, Cli.parseErrorParts, h]
  · intro ty v len al col hcol hal
    have hmsg : ("Unexpected " ++ ty ++ " token " ++ v).data
        = 'U' :: ("nexpected " ++ ty ++ " token " ++ v).data := by
      simp only [String.data_append, List.append_assoc]
      rfl
    have h := Cli.renderFromParts_one ("Unexpected " ++ ty ++ " token " ++ v) 'U'
      (("nexpected " ++ ty ++ " token " ++ v).data) hmsg (by decide) al col (max len 1)
      hcol (by positivity) hal
    rw [Cli.renderParseError, Cli.parseErrorParts, h]
  · intro ch al col hcol hal
    have hmsg : ("No terminal matches " ++ ch).data
        = 'N' :: ("o terminal matches " ++ ch).data := by
      simp only [String.data_append, List.append_assoc]
      rfl
    have h := Cli.renderFromParts_many ("No terminal matches " ++ ch) 'N'
      (("o terminal matches " ++ ch).data) hmsg (by decide) al col 1
      hcol (by positivity) hal
    rw [Cli.renderParseError, Cli.parseErrorParts, h]
  · intro ex col hcol hal
    have hmsg : ("Unexpected EOF" : String).data
        = 'U' :: ("nexpected EOF" : String).data := by rfl
    have h := Cli.renderFromParts_many "Unexpected EOF" 'U'
      (("nexpected EOF" : String).data) hmsg (by decide) ex col 1
      hcol (by positivity) hal
    rw [Cli.renderParseError, Cli.parseErrorParts, h]
  · intro col hcol
    have hmsg : ("Unexpected input" : String).data
        = 'U' :: ("nexpected input" : String).data := by rfl
    have h := Cli.renderFromParts_many "Unexpected input" 'U'
      (("nexpected input" : String).data) hmsg (by decide) [] col 1
      hcol (by positivity) (by simp)
    rw [Cli.renderParseError, Cli.parseErrorParts, h]
  · intro msg line col endCol
    rfl
  · intro msg line col endCol hc he
    simp [Cli.renderEvalError, Cli.evalColumnSize, Cli.pyOrOne, hc, he]

/-- Witness for C9 (amended), at a concrete unexpected-token error in
column 3 with acceptable kinds `{"B", "A"}`. -/
theorem error_rendering_amended_witness :
    (0 < 3)
    ∧ ((["B", "A"] : List String).length ≠ 1)
    ∧ (Cli.renderParseError (.unexpectedToken "NUMBER" "'x'" 2 ["B", "A"] 3)
        = "Unexpected " ++ "NUMBER" ++ " token " ++ "'x'" ++ ": Expected one of:\n"
          ++ String.intercalate ", " (Cli.strSort ["B", "A"]) ++ "\n"
          ++ Cli.spaces (3 - 1) ++ Cli.markers (max 2 1)
      ∧ (Cli.strSort ["B", "A"]).Pairwise (fun x y => Cli.strLe x y = true)
      ∧ (Cli.strSort ["B", "A"]).Perm ["B", "A"]
      ∧ 0 < max 2 1) :=
  ⟨by decide, by decide,
    error_rendering_amended.1 "NUMBER" "'x'" 2 ["B", "A"] 3 (by decide) (by decide)⟩

/-- C10: the result history is mutated only by submission.  A live-validation
pass (`on_line_input_changed`) never changes the evaluator's results list; a
submit while the input is in the `success` state whose re-parse and
re-evaluation succeed appends exactly one (source, parsed form, result)
triple and clears the input; a submit outside the `success` state, or whose
re-parse or re-evaluation fails, leaves the state unchanged. -/
theorem history_mutation_spec (Tree Res : Type) (env : Cli.CalcEnv Tree Res) :
    (∀ (s : Cli.AppState Tree Res) (v : String),
      (Cli.onLineInputChanged env s v).results = s.results)
    ∧ (∀ s : Cli.AppState Tree Res, s.inputSuccess = false →
        Cli.onLineInputSubmitted env s = s)
    ∧ (∀ (s : Cli.AppState Tree Res) (t : Tree) (r : Res), s.inputSuccess = true →
        env.parse s.inputValue = .ok t → env.evalTree t = .ok r →
        (Cli.onLineInputSubmitted env s).results = s.results ++ [(s.inputValue, t, r)]
          ∧ (Cli.onLineInputSubmitted env s).inputValue = "")
    ∧ (∀ (s : Cli.AppState Tree Res) (e : Cli.ParseError), s.inputSuccess = true →
        env.parse s.inputValue = .error e → Cli.onLineInputSubmitted env s = s)
    ∧ (∀ (s : Cli.AppState Tree Res) (t : Tree) (e : Cli.EvalError), s.inputSuccess = true →
        env.parse s.inputValue = .ok t → env.evalTree t = .error e →
        Cli.onLineInputSubmitted env s = s) := by
  refine ⟨?_, ?_, ?_, ?_, ?_⟩
  · intro s v
    unfold Cli.onLineInputChanged
    dsimp only
    split
    · rfl
    · cases env.parse v with
      | error e => rfl
      | ok t =>
        dsimp only
        split
        · rfl
        · cases env.evalTree t with
          | error e => rfl
          | ok r => rfl
  · intro s h
    simp [Cli.onLineInputSubmitted, h]
  · intro s t r hs hp he
    simp [Cli.onLineInputSubmitted, hs, hp, he]
  · intro s e hs hp
    simp [Cli.onLineInputSubmitted, hs, hp]
  · intro s t e hs hp he
    simp [Cli.onLineInputSubmitted, hs, hp, he]

/-- Witness for C10, with a trivial parser/evaluator environment and a
success-state input line `"1"`. -/
theorem history_mutation_spec_witness :
    Cli.sampleState.inputSuccess = true
    ∧ Cli.unitEnv.parse Cli.sampleState.inputValue = .ok ()
    ∧ Cli.unitEnv.evalTree () = .ok ()
    ∧ (Cli.onLineInputSubmitted Cli.unitEnv Cli.sampleState).results
        = Cli.sampleState.results ++ [(Cli.sampleState.inputValue, (), ())]
    ∧ (Cli.onLineInputSubmitted Cli.unitEnv Cli.sampleState).inputValue = "" :=
  ⟨rfl, rfl, rfl,
    ((history_mutation_spec Unit Unit Cli.unitEnv).2.2.1 Cli.sampleState () () rfl rfl rfl).1,
    ((history_mutation_spec Unit Unit Cli.unitEnv).2.2.1 Cli.sampleState () () rfl rfl rfl).2⟩

end DimAns
